import Mathlib

/-!
Shallow embedding of the session/token lifecycle and authorization gate of the
codeniversity-api backend (TypeScript/Express/Redis/jsonwebtoken), covering:

* `src/middleware/auth.ts` — `isAuthenticated`, `authorizedRoles`
* `src/middleware/error.ts` — `ErrorMiddleware`
* `src/utils/jwt.ts` and the second observed revision of the same module —
  `sendToken` and the exported cookie options
* `src/controllers/user.controller.ts` — `logoutUser`, `updateAccessToken`
  (and the older revision of `updateAccessToken`)
* `src/services/user.service.ts` — `getUserById`

Times are modelled with two clocks, matching the source's two units:
`now : Nat` is the JWT clock in seconds (what `jsonwebtoken` compares `exp`
against), `nowMs : Nat` is `Date.now()` in milliseconds (what cookie
`expires`/`maxAge` arithmetic uses).
-/

/-- Payload of a verified JWT as used by this codebase: `{ id }`
(`decoded.id` is the asserted identity id). -/
structure JwtPayload where
  id : String
  deriving DecidableEq, Repr

/-- The two failure modes `jsonwebtoken.verify` throws that this codebase
distinguishes in `ErrorMiddleware`: `JsonWebTokenError` (malformed token /
bad signature) and `TokenExpiredError`. -/
inductive JwtError where
  | jsonWebTokenError
  | tokenExpired
  deriving DecidableEq, Repr

/-- Model of a signed JWT produced by `jwt.sign({ id }, secret, { expiresIn })`:
the payload id, the secret it was signed with (a token "verifies" against a
secret iff it was signed with that same secret — the model of signature
validity), and the absolute expiry in seconds (`none` = no `exp` claim). -/
structure SignedToken where
  id : String
  secret : String
  expiresAt : Option Nat
  deriving DecidableEq, Repr

/-- `jwt.sign(payload, secret, opts)`. -/
def jwtSign (payloadId secret : String) (expiresAt : Option Nat) : SignedToken :=
  ⟨payloadId, secret, expiresAt⟩

/-- `jwt.verify(token, secret)` at JWT-clock `now` (seconds): throws
`JsonWebTokenError` on a signature mismatch, `TokenExpiredError` when
`now >= exp`, and otherwise returns the decoded payload. Modelled as
`Except`: `.error` is a thrown exception. -/
def jwtVerify (tok : SignedToken) (secret : String) (now : Nat) :
    Except JwtError JwtPayload :=
  if tok.secret ≠ secret then .error .jsonWebTokenError
  else
    match tok.expiresAt with
    | some e => if e ≤ now then .error .tokenExpired else .ok ⟨tok.id⟩
    | none => .ok ⟨tok.id⟩

/-- `true` iff the token has not yet expired at JWT-clock `now`. -/
def tokenUnexpired (tok : SignedToken) (now : Nat) : Bool :=
  match tok.expiresAt with
  | some e => decide (now < e)
  | none => true

/-- The identity record (`IUser` of `models/user.model.ts`) restricted to the
fields this slice reads: `_id`, `role`, plus a profile field standing for the
rest of the serializable snapshot. -/
structure IUser where
  _id : String
  role : String
  name : String
  deriving DecidableEq, Repr

/-- Model of the `JSON.stringify(user)` string: an opaque serialized snapshot.
JSON round-tripping (`JSON.parse ∘ JSON.stringify = id` on plain records) is
behavior of the JS standard library, not of this repository, so serialization
is modelled as a faithful wrapper around the record. -/
structure SerializedUser where
  val : IUser
  deriving DecidableEq, Repr

/-- `JSON.stringify(user)`. -/
def jsonStringify (u : IUser) : SerializedUser := ⟨u⟩

/-- `JSON.parse(sessionString)`. -/
def jsonParse (s : SerializedUser) : IUser := s.val

/-- One Redis value written by this codebase: the serialized user snapshot and
its absolute expiry in seconds (`none` = the key was `set` without `EX` and
persists until deleted or overwritten). -/
structure SessionEntry where
  value : SerializedUser
  expireAt : Option Nat
  deriving DecidableEq, Repr

/-- The Session Store (the Redis keyspace this slice touches). -/
def SessionStore := String → Option SessionEntry

/-- `redis.set(key, value)` / `redis.set(key, value, 'EX', ttl)` at JWT-clock
`now` (seconds): upserts, overwriting any previous entry and its TTL. -/
def redisSet (store : SessionStore) (k : String) (v : SerializedUser)
    (ex : Option Nat) (now : Nat) : SessionStore :=
  fun q => if q = k then some ⟨v, ex.map (fun ttl => now + ttl)⟩ else store q

/-- `redis.get(key)` at JWT-clock `now`: Redis reports an expired key as
absent. -/
def redisGet (store : SessionStore) (k : String) (now : Nat) :
    Option SerializedUser :=
  match store k with
  | some e =>
    match e.expireAt with
    | some t => if t ≤ now then none else some e.value
    | none => some e.value
  | none => none

/-- `redis.del(key)`: idempotent removal. -/
def redisDel (store : SessionStore) (k : String) : SessionStore :=
  fun q => if q = k then none else store q

/-- The environment configuration this slice reads. The `*ExpiresEnv` fields
are `ACCESS_TOKEN_EXPIRES` / `REFRESH_TOKEN_EXPIRES` already passed through
`parseInt` (`none` = the variable is unset, so the revision-specific fallback
applies). `accessTokenLife` / `refreshTokenLife` parameterize the
spec-modelled token lifetimes of the missing `models/user.model.ts`. -/
structure Env where
  accessTokenSecret : String
  refreshTokenSecret : String
  accessTokenExpiresEnv : Option Nat
  refreshTokenExpiresEnv : Option Nat
  accessTokenLife : Nat
  refreshTokenLife : Nat
  isProduction : Bool
  deriving DecidableEq, Repr

/-- A single apostrophe, used in the role-denial message template. -/
def singleQuote : String := String.singleton (Char.ofNat 39)

/-- The JSON bodies this slice sends, one constructor per literal object in
the source. -/
inductive ResBody where
  | loginBody (success : Bool) (user : IUser) (accessToken : SignedToken)
  | messageBody (success : Bool) (message : String)
  | refreshBody (status : String) (refreshToken : SignedToken)
  | userBody (success : Bool) (user : IUser)
  deriving DecidableEq, Repr

/-- An HTTP response: status code and JSON body. -/
structure HttpResponse where
  status : Nat
  body : ResBody
  deriving DecidableEq, Repr

/-- Cookie options as passed to `res.cookie`: either a full `ITokenOptions`
object or the bare `{ maxAge: 1 }` used at logout. -/
structure TokenOptions where
  expires : Nat
  maxAge : Nat
  httpOnly : Bool
  sameSite : String
  secure : Option Bool
  deriving DecidableEq, Repr

inductive CookieOpts where
  | tokenOpts (o : TokenOptions)
  | maxAgeOnly (m : Nat)
  deriving DecidableEq, Repr

/-- One `res.cookie(name, value, opts)` call. `value = none` models the empty
string written at logout. -/
structure SetCookie where
  name : String
  value : Option SignedToken
  opts : CookieOpts
  deriving DecidableEq, Repr

/-- The errors reaching `ErrorMiddleware` from this slice: an
`ErrorHandler(message, statusCode)` passed to `next`, or a raw error thrown
by `jwt.verify` and forwarded by `catchAsyncErrors`. -/
inductive AppError where
  | handler (message : String) (statusCode : Nat)
  | jwt (e : JwtError)
  deriving DecidableEq, Repr

/-- `src/middleware/error.ts` `ErrorMiddleware`: maps an error to the response
sent to the client. An `ErrorHandler` keeps its own status and message; a
`JsonWebTokenError` becomes 401 "Invalid token...", a `TokenExpiredError`
becomes 401 "Expired token...". (The `CastError` / duplicate-key branches
concern Mongo error shapes that the flows modelled here never produce.) -/
def ErrorMiddleware (err : AppError) : HttpResponse :=
  match err with
  | .handler msg code => ⟨code, .messageBody false msg⟩
  | .jwt .jsonWebTokenError =>
    ⟨401, .messageBody false "Invalid token. Please provide a valid token"⟩
  | .jwt .tokenExpired =>
    ⟨401, .messageBody false "Expired token. Please log in again"⟩

/-- The message property of the raw `jsonwebtoken` errors (what
`error.message` evaluates to inside a `catch`). -/
def jwtErrorMessage (e : JwtError) : String :=
  match e with
  | .jsonWebTokenError => "invalid signature"
  | .tokenExpired => "jwt expired"

/-- The request fields this slice reads: the two auth cookies and the
`req.user` attached by `isAuthenticated` (absent when the gate has not run). -/
structure AuthRequest where
  accessTokenCookie : Option SignedToken
  refreshTokenCookie : Option SignedToken
  user : Option IUser

/-- Outcome of `isAuthenticated`: `next(new ErrorHandler(message, status))`,
an exception thrown by `jwt.verify` (routed by `catchAsyncErrors` to
`next(err)`), or `req.user` set and `next()` called. -/
inductive GateResult where
  | nextError (statusCode : Nat) (message : String)
  | thrownJwt (e : JwtError)
  | authenticated (u : IUser)
  deriving DecidableEq, Repr

/-- `src/middleware/auth.ts` `isAuthenticated`: reject 401 when the
`access_token` cookie is absent; verify it against `ACCESS_TOKEN` (a throw
propagates via `catchAsyncErrors`); look up `decoded.id` in Redis, rejecting
401 when absent; otherwise attach the parsed session to `req.user` and call
`next()`. (The source's `if (!decoded)` check is unreachable: a non-throwing
`jwt.verify` always returns a truthy payload.) -/
def isAuthenticated (env : Env) (store : SessionStore) (now : Nat)
    (req : AuthRequest) : GateResult :=
  match req.accessTokenCookie with
  | none => .nextError 401 "Please login to access this resource"
  | some accessToken =>
    match jwtVerify accessToken env.accessTokenSecret now with
    | .error e => .thrownJwt e
    | .ok decoded =>
      match redisGet store decoded.id now with
      | none => .nextError 401 "Please login to access this resource"
      | some user => .authenticated (jsonParse user)

/-- The response `isAuthenticated` ultimately causes, `none` when control
passes to the next handler: a `next(err)` or a thrown error lands in
`ErrorMiddleware`. -/
def gateResponse (env : Env) (store : SessionStore) (now : Nat)
    (req : AuthRequest) : Option HttpResponse :=
  match isAuthenticated env store now req with
  | .nextError code msg => some (ErrorMiddleware (.handler msg code))
  | .thrownJwt e => some (ErrorMiddleware (.jwt e))
  | .authenticated _ => none

/-- Outcome of the `authorizedRoles` middleware. -/
inductive RoleGateResult where
  | nextError (statusCode : Nat) (message : String)
  | proceed
  deriving DecidableEq, Repr

/-- The template string of `req.user?.role`: JS string interpolation prints
`undefined` when the optional chain is undefined. -/
def optionalRoleStr (u : Option IUser) : String :=
  match u with
  | some v => v.role
  | none => "undefined"

/-- The 403 message template of `authorizedRoles`. -/
def roleNotAllowedMessage (roleStr : String) : String :=
  "Role " ++ singleQuote ++ roleStr ++ singleQuote ++ " is not allowed to access this resource"

/-- `src/middleware/auth.ts` `authorizedRoles(...roles)`: rejects 403 when
`roles.includes(req.user?.role || '')` is false (an absent user contributes
the empty string to the membership test, but the message interpolates the raw
`req.user?.role`), otherwise calls `next()`. -/
def authorizedRoles (roles : List String) (req : AuthRequest) : RoleGateResult :=
  if !(roles.contains ((req.user.map IUser.role).getD "")) then
    .nextError 403 (roleNotAllowedMessage (optionalRoleStr req.user))
  else .proceed

/-- Modelled from the spec: `user.signAccessToken()` is defined in
`models/user.model.ts`, which is absent from the sources (only its callers
are). Per the spec, mint "produces two signed tokens, each embedding the
identity id as the asserted subject, each signed with a distinct secret and
distinct expiry (access: short, e.g. minutes; refresh: long, e.g. days)". -/
def signAccessToken (env : Env) (now : Nat) (u : IUser) : SignedToken :=
  jwtSign u._id env.accessTokenSecret (some (now + env.accessTokenLife))

/-- Modelled from the spec: `user.signRefreshToken()` from the missing
`models/user.model.ts`; see `signAccessToken`. -/
def signRefreshToken (env : Env) (now : Nat) (u : IUser) : SignedToken :=
  jwtSign u._id env.refreshTokenSecret (some (now + env.refreshTokenLife))

/-- Result of a `sendToken` call: the Redis keyspace after the `redis.set`,
the two `res.cookie` calls in order, the JSON response, and the freshly
minted pair. -/
structure SendTokenResult where
  newStore : SessionStore
  cookies : List SetCookie
  response : HttpResponse
  accessToken : SignedToken
  refreshToken : SignedToken

/-- `src/utils/jwt.ts` `sendToken` (revision A): mints the pair, writes the
session to Redis with NO TTL, computes cookie options from
`ACCESS_TOKEN_EXPIRES`/`REFRESH_TOKEN_EXPIRES` with fallbacks '300' and
'1200' interpreted as SECONDS (`expires` additionally adds one hour;
`maxAge = value * 1000` ms), marks the access cookie `secure` in production,
sets both cookies and responds `{ success: true, user, accessToken }`. -/
def sendTokenA (env : Env) (now nowMs : Nat) (user : IUser)
    (statusCode : Nat) (store : SessionStore) : SendTokenResult :=
  let accessToken := signAccessToken env now user
  let refreshToken := signRefreshToken env now user
  let store2 := redisSet store user._id (jsonStringify user) none now
  let accessTokenExpires := env.accessTokenExpiresEnv.getD 300
  let refreshTokenExpires := env.refreshTokenExpiresEnv.getD 1200
  let accessTokenOpts : TokenOptions :=
    ⟨nowMs + accessTokenExpires * 1000 + 60 * 60 * 1000,
     accessTokenExpires * 1000, true, "lax",
     if env.isProduction then some true else none⟩
  let refreshTokenOpts : TokenOptions :=
    ⟨nowMs + refreshTokenExpires * 1000 + 60 * 60 * 1000,
     refreshTokenExpires * 1000, true, "lax", none⟩
  ⟨store2,
   [⟨"access_token", some accessToken, .tokenOpts accessTokenOpts⟩,
    ⟨"refresh_token", some refreshToken, .tokenOpts refreshTokenOpts⟩],
   ⟨statusCode, .loginBody true user accessToken⟩,
   accessToken, refreshToken⟩

/-- Revision B of the jwt utils module (`src/unnamed/part_001`): the
module-level exported `accessTokenOptions`, computed once at module load
(`nowMs` = `Date.now()` then), with fallback '5' interpreted as HOURS
(`maxAge = value * 60 * 60 * 1000` ms). The in-production mutation
`accessTokenOptions.secure = true` is modelled as determined by the
environment. These exported options are the ones `updateAccessToken`
imports. -/
def accessTokenOptions (env : Env) (nowMs : Nat) : TokenOptions :=
  let accessTokenExpires := env.accessTokenExpiresEnv.getD 5
  ⟨nowMs + accessTokenExpires * 60 * 60 * 1000,
   accessTokenExpires * 60 * 60 * 1000, true, "lax",
   if env.isProduction then some true else none⟩

/-- Revision B module-level `refreshTokenOptions`: fallback '3' interpreted
as DAYS (`maxAge = value * 24 * 60 * 60 * 1000` ms). -/
def refreshTokenOptions (env : Env) (nowMs : Nat) : TokenOptions :=
  let refreshTokenExpires := env.refreshTokenExpiresEnv.getD 3
  ⟨nowMs + refreshTokenExpires * 24 * 60 * 60 * 1000,
   refreshTokenExpires * 24 * 60 * 60 * 1000, true, "lax", none⟩

/-- `src/unnamed/part_001` `sendToken` (revision B): same minting, same
untimed `redis.set`, same response body, but cookie options are the
module-level `accessTokenOptions`/`refreshTokenOptions` above. -/
def sendTokenB (env : Env) (now nowMs : Nat) (user : IUser)
    (statusCode : Nat) (store : SessionStore) : SendTokenResult :=
  let accessToken := signAccessToken env now user
  let refreshToken := signRefreshToken env now user
  let store2 := redisSet store user._id (jsonStringify user) none now
  ⟨store2,
   [⟨"access_token", some accessToken, .tokenOpts (accessTokenOptions env nowMs)⟩,
    ⟨"refresh_token", some refreshToken, .tokenOpts (refreshTokenOptions env nowMs)⟩],
   ⟨statusCode, .loginBody true user accessToken⟩,
   accessToken, refreshToken⟩

/-- Result of `logoutUser`. -/
structure LogoutResult where
  newStore : SessionStore
  cookies : List SetCookie
  response : HttpResponse

/-- `src/controllers/user.controller.ts` `logoutUser`: overwrites both auth
cookies with the empty string and `{ maxAge: 1 }`, deletes `req.user?._id`
from Redis (a request with no attached user passes `undefined`, touching no
session key: modelled as a no-op), and responds
200 `{ success: true, message: 'Logged out successfully!' }`. -/
def logoutUser (store : SessionStore) (req : AuthRequest) : LogoutResult :=
  ⟨(match req.user with
    | some u => redisDel store u._id
    | none => store),
   [⟨"access_token", none, .maxAgeOnly 1⟩,
    ⟨"refresh_token", none, .maxAgeOnly 1⟩],
   ⟨200, .messageBody true "Logged out successfully!"⟩⟩

/-- The success payload of `updateAccessToken`. -/
structure RefreshSuccess where
  newStore : SessionStore
  accessToken : SignedToken
  refreshToken : SignedToken
  cookies : List SetCookie
  response : HttpResponse
  reqUser : IUser

/-- Outcome of `updateAccessToken`: every failure reaches
`next(new ErrorHandler(message, statusCode))` (the in-function `catch`
converts thrown `jwt.verify` errors to `ErrorHandler(error.message, 400)`). -/
inductive RefreshResult where
  | err (statusCode : Nat) (message : String)
  | ok (s : RefreshSuccess)

/-- `src/controllers/user.controller.ts` `updateAccessToken`: verify the
`refresh_token` cookie against `REFRESH_TOKEN` (a throw is caught and
becomes a 400 with the error's own message; an absent cookie makes
`jwt.verify` throw "jwt must be provided", likewise a 400); reject 401 when
no session backs `decoded.id`; otherwise sign a fresh pair
(`expiresIn: '5m'` = 300 s and `'3d'` = 259200 s), attach `req.user`, set
both cookies with the imported revision-B options, RE-WRITE the session with
`'EX', 259200` (3 days), and respond 200 `{ status: 'success', refreshToken }`
— the body carries only the refresh token, the access token travels only as
a cookie. -/
def updateAccessToken (env : Env) (now nowMs : Nat) (store : SessionStore)
    (req : AuthRequest) : RefreshResult :=
  match req.refreshTokenCookie with
  | none => .err 400 "jwt must be provided"
  | some refreshCookie =>
    match jwtVerify refreshCookie env.refreshTokenSecret now with
    | .error e => .err 400 (jwtErrorMessage e)
    | .ok decoded =>
      match redisGet store decoded.id now with
      | none => .err 401 "Please login to access this route"
      | some session =>
        let user := jsonParse session
        let accessToken := jwtSign user._id env.accessTokenSecret (some (now + 300))
        let refreshToken := jwtSign user._id env.refreshTokenSecret (some (now + 259200))
        let store2 := redisSet store user._id (jsonStringify user) (some 259200) now
        .ok ⟨store2, accessToken, refreshToken,
             [⟨"access_token", some accessToken, .tokenOpts (accessTokenOptions env nowMs)⟩,
              ⟨"refresh_token", some refreshToken, .tokenOpts (refreshTokenOptions env nowMs)⟩],
             ⟨200, .refreshBody "success" refreshToken⟩, user⟩

/-- `src/unnamed/part_005` `updateAccessToken` (older revision): a missing
session is a 400 "Could not refresh token" (not 401) and the session entry
is NOT re-written — no `redis.set` call at all. -/
def updateAccessTokenOld (env : Env) (now nowMs : Nat) (store : SessionStore)
    (req : AuthRequest) : RefreshResult :=
  match req.refreshTokenCookie with
  | none => .err 400 "jwt must be provided"
  | some refreshCookie =>
    match jwtVerify refreshCookie env.refreshTokenSecret now with
    | .error e => .err 400 (jwtErrorMessage e)
    | .ok decoded =>
      match redisGet store decoded.id now with
      | none => .err 400 "Could not refresh token"
      | some session =>
        let user := jsonParse session
        let accessToken := jwtSign user._id env.accessTokenSecret (some (now + 300))
        let refreshToken := jwtSign user._id env.refreshTokenSecret (some (now + 259200))
        .ok ⟨store, accessToken, refreshToken,
             [⟨"access_token", some accessToken, .tokenOpts (accessTokenOptions env nowMs)⟩,
              ⟨"refresh_token", some refreshToken, .tokenOpts (refreshTokenOptions env nowMs)⟩],
             ⟨200, .refreshBody "success" refreshToken⟩, user⟩

/-- `src/services/user.service.ts` `getUserById`: reads the session string
from Redis and, ONLY when it is present, responds
200 `{ success: true, user }`; when the key is absent the function falls
through without responding and without signalling any error — `none`. -/
def getUserById (store : SessionStore) (now : Nat) (id : String) :
    Option HttpResponse :=
  match redisGet store id now with
  | some userJson => some ⟨200, .userBody true (jsonParse userJson)⟩
  | none => none

/-! ### Helper lemmas about the JWT model -/

/-- A successful `jwt.verify` returns the payload the token was signed over. -/
theorem jwtVerify_ok_id {tok : SignedToken} {secret : String} {now : Nat}
    {p : JwtPayload} (h : jwtVerify tok secret now = .ok p) : p = ⟨tok.id⟩ := by
  unfold jwtVerify at h
  split at h
  · exact absurd h (by simp)
  · split at h
    · split at h
      · exact absurd h (by simp)
      · simpa using h.symm
    · simpa using h.symm

/-- A token signed with the right secret and still unexpired verifies. -/
theorem jwtVerify_ok_of {tok : SignedToken} {secret : String} {now : Nat}
    (h1 : tok.secret = secret) (h2 : tokenUnexpired tok now = true) :
    jwtVerify tok secret now = .ok ⟨tok.id⟩ := by
  unfold jwtVerify
  rw [if_neg (by simp [h1])]
  unfold tokenUnexpired at h2
  cases he : tok.expiresAt with
  | none => simp
  | some e =>
    rw [he] at h2
    simp only [decide_eq_true_eq] at h2
    show (if e ≤ now then Except.error JwtError.tokenExpired
          else Except.ok (JwtPayload.mk tok.id)) =
        (Except.ok (JwtPayload.mk tok.id) : Except JwtError JwtPayload)
    rw [if_neg (by omega)]

/-! ### Concrete fixtures used by witnesses and counterexamples -/

/-- A concrete environment: secrets "as"/"rs", both expiry variables set
(`ACCESS_TOKEN_EXPIRES=5`, `REFRESH_TOKEN_EXPIRES=3`), not production. -/
def envW : Env := ⟨"as", "rs", some 5, some 3, 300, 259200, false⟩

/-- A concrete identity with role "user". -/
def userW : IUser := ⟨"u1", "user", "Pat"⟩

/-- The empty Session Store. -/
def emptyStoreW : SessionStore := fun _ => none

/-- A Session Store holding exactly the untimed session of `userW`. -/
def storeW : SessionStore :=
  fun k => if k = "u1" then some ⟨jsonStringify userW, none⟩ else none

/-- An access token for `userW`, signed with the access secret, expiring at
second 1000. -/
def accessTokW : SignedToken := jwtSign "u1" "as" (some 1000)

/-- A refresh token for `userW`, signed with the refresh secret, expiring at
second 1000. -/
def refreshTokW : SignedToken := jwtSign "u1" "rs" (some 1000)

/-! ### Claims -/

/-- Claim C1: the Authentication Gate authenticates only if a session entry
for the asserted identity id exists in the Session Store; and after
`logoutUser` deletes the session entry for an identity, every subsequent
gate check with a still-unexpired, correctly signed access token for that
identity is rejected with 401. -/
theorem c1_gate_requires_session_and_revocation :
    (∀ (env : Env) (store : SessionStore) (now : Nat) (req : AuthRequest)
        (tok : SignedToken) (u : IUser),
      req.accessTokenCookie = some tok →
      isAuthenticated env store now req = .authenticated u →
      ∃ s, redisGet store tok.id now = some s ∧ u = jsonParse s) ∧
    (∀ (env : Env) (store : SessionStore) (now : Nat) (req1 req2 : AuthRequest)
        (u : IUser) (tok : SignedToken),
      req1.user = some u →
      req2.accessTokenCookie = some tok →
      tok.id = u._id →
      tok.secret = env.accessTokenSecret →
      tokenUnexpired tok now = true →
      isAuthenticated env (logoutUser store req1).newStore now req2 =
        .nextError 401 "Please login to access this resource") := by
  constructor
  · intro env store now req tok u hc hauth
    simp only [isAuthenticated, hc] at hauth
    cases hv : jwtVerify tok env.accessTokenSecret now with
    | error e => simp only [hv] at hauth; exact absurd hauth (by simp)
    | ok p =>
      have hp := jwtVerify_ok_id hv
      simp only [hv] at hauth
      cases hg : redisGet store p.id now with
      | none => simp only [hg] at hauth; exact absurd hauth (by simp)
      | some s =>
        simp only [hg, GateResult.authenticated.injEq] at hauth
        refine ⟨s, ?_, hauth.symm⟩
        rw [hp] at hg
        exact hg
  · intro env store now req1 req2 u tok hu hc hid hsec hunexp
    simp only [isAuthenticated, hc, jwtVerify_ok_of hsec hunexp, logoutUser, hu]
    simp [redisGet, redisDel, hid]

/-- Witness for C1: in a store holding only the session of `userW`, a valid
token authenticates against some stored snapshot; after `logoutUser` for
`userW`, the same still-unexpired token is rejected 401. -/
theorem c1_witness :
    (∃ s, redisGet storeW accessTokW.id 0 = some s ∧ userW = jsonParse s) ∧
    (isAuthenticated envW (logoutUser storeW ⟨none, none, some userW⟩).newStore 0
        ⟨some accessTokW, none, none⟩ =
      .nextError 401 "Please login to access this resource") := by
  constructor
  · exact c1_gate_requires_session_and_revocation.1 envW storeW 0
      ⟨some accessTokW, none, none⟩ accessTokW userW rfl (by decide)
  · exact c1_gate_requires_session_and_revocation.2 envW storeW 0
      ⟨none, none, some userW⟩ ⟨some accessTokW, none, none⟩ userW accessTokW
      rfl rfl rfl rfl (by decide)

/-- Claim C2: `isAuthenticated` as a total function: an absent `access_token`
cookie is rejected 401 "Please login to access this resource" without
consulting the Session Store; a verified token whose id has no session entry
is rejected 401; otherwise the deserialized session snapshot is attached as
the current identity and control passes on. -/
theorem c2_gate_total_function (env : Env) (store : SessionStore) (now : Nat)
    (req : AuthRequest) :
    (req.accessTokenCookie = none →
      isAuthenticated env store now req =
        .nextError 401 "Please login to access this resource" ∧
      ∀ store2 : SessionStore,
        isAuthenticated env store2 now req = isAuthenticated env store now req) ∧
    (∀ (tok : SignedToken) (p : JwtPayload),
      req.accessTokenCookie = some tok →
      jwtVerify tok env.accessTokenSecret now = .ok p →
      (redisGet store p.id now = none →
        isAuthenticated env store now req =
          .nextError 401 "Please login to access this resource") ∧
      (∀ s, redisGet store p.id now = some s →
        isAuthenticated env store now req = .authenticated (jsonParse s))) := by
  constructor
  · intro hnone
    exact ⟨by simp [isAuthenticated, hnone], fun store2 => by
      simp [isAuthenticated, hnone]⟩
  · intro tok p hc hv
    constructor
    · intro habs
      simp [isAuthenticated, hc, hv, habs]
    · intro s hget
      simp [isAuthenticated, hc, hv, hget]

/-- Witness for C2: all three branches at concrete inputs — no cookie,
valid token without a session, valid token with a session. -/
theorem c2_witness :
    (isAuthenticated envW storeW 0 ⟨none, none, none⟩ =
      .nextError 401 "Please login to access this resource") ∧
    (isAuthenticated envW emptyStoreW 0 ⟨some accessTokW, none, none⟩ =
      .nextError 401 "Please login to access this resource") ∧
    (isAuthenticated envW storeW 0 ⟨some accessTokW, none, none⟩ =
      .authenticated userW) := by
  refine ⟨?_, ?_, ?_⟩
  · exact ((c2_gate_total_function envW storeW 0 ⟨none, none, none⟩).1 rfl).1
  · exact ((c2_gate_total_function envW emptyStoreW 0
      ⟨some accessTokW, none, none⟩).2 accessTokW ⟨"u1"⟩ rfl rfl).1 rfl
  · exact ((c2_gate_total_function envW storeW 0
      ⟨some accessTokW, none, none⟩).2 accessTokW ⟨"u1"⟩ rfl rfl).2
      (jsonStringify userW) rfl

/-- Claim C3: `updateAccessToken` fails 400 when the refresh credential is
invalid or expired (the thrown `jwt.verify` error is caught and wrapped in a
400 `ErrorHandler`), and fails 401 when the credential verifies but no
session entry backs the asserted id. -/
theorem c3_refresh_error_paths :
    (∀ (env : Env) (now nowMs : Nat) (store : SessionStore) (req : AuthRequest)
        (tok : SignedToken) (e : JwtError),
      req.refreshTokenCookie = some tok →
      jwtVerify tok env.refreshTokenSecret now = .error e →
      updateAccessToken env now nowMs store req =
        .err 400 (jwtErrorMessage e)) ∧
    (∀ (env : Env) (now nowMs : Nat) (store : SessionStore) (req : AuthRequest)
        (tok : SignedToken) (p : JwtPayload),
      req.refreshTokenCookie = some tok →
      jwtVerify tok env.refreshTokenSecret now = .ok p →
      redisGet store p.id now = none →
      updateAccessToken env now nowMs store req =
        .err 401 "Please login to access this route") := by
  constructor
  · intro env now nowMs store req tok e hc hv
    simp [updateAccessToken, hc, hv]
  · intro env now nowMs store req tok p hc hv habs
    simp [updateAccessToken, hc, hv, habs]

/-- Witness for C3: an expired refresh token is refused 400 "jwt expired";
a valid refresh token with no backing session is refused 401. -/
theorem c3_witness :
    (updateAccessToken envW 2000 0 storeW ⟨none, some refreshTokW, none⟩ =
      .err 400 "jwt expired") ∧
    (updateAccessToken envW 0 0 emptyStoreW ⟨none, some refreshTokW, none⟩ =
      .err 401 "Please login to access this route") := by
  constructor
  · exact c3_refresh_error_paths.1 envW 2000 0 storeW
      ⟨none, some refreshTokW, none⟩ refreshTokW .tokenExpired rfl rfl
  · exact c3_refresh_error_paths.2 envW 0 0 emptyStoreW
      ⟨none, some refreshTokW, none⟩ refreshTokW ⟨"u1"⟩ rfl rfl rfl

/-- Claim C6: on a successful refresh, a new access/refresh pair is minted
(`'5m'` and `'3d'`), both are set as cookies, the 200 response body is
`{ status: 'success', refreshToken }` — it carries the new refresh credential
and, by its very shape, no access credential — and the session entry is
re-written with `'EX', 259200`, i.e. a refreshed TTL of exactly 3 days,
extending the session's life. -/
theorem c6_refresh_success (env : Env) (now nowMs : Nat)
    (store : SessionStore) (req : AuthRequest) (tok : SignedToken)
    (p : JwtPayload) (session : SerializedUser)
    (hc : req.refreshTokenCookie = some tok)
    (hv : jwtVerify tok env.refreshTokenSecret now = .ok p)
    (hs : redisGet store p.id now = some session) :
    updateAccessToken env now nowMs store req =
      .ok ⟨redisSet store (jsonParse session)._id
             (jsonStringify (jsonParse session)) (some 259200) now,
           jwtSign (jsonParse session)._id env.accessTokenSecret (some (now + 300)),
           jwtSign (jsonParse session)._id env.refreshTokenSecret (some (now + 259200)),
           [⟨"access_token",
             some (jwtSign (jsonParse session)._id env.accessTokenSecret
               (some (now + 300))),
             .tokenOpts (accessTokenOptions env nowMs)⟩,
            ⟨"refresh_token",
             some (jwtSign (jsonParse session)._id env.refreshTokenSecret
               (some (now + 259200))),
             .tokenOpts (refreshTokenOptions env nowMs)⟩],
           ⟨200, .refreshBody "success"
             (jwtSign (jsonParse session)._id env.refreshTokenSecret
               (some (now + 259200)))⟩,
           jsonParse session⟩ ∧
    redisSet store (jsonParse session)._id (jsonStringify (jsonParse session))
        (some 259200) now (jsonParse session)._id =
      some ⟨jsonStringify (jsonParse session), some (now + 259200)⟩ := by
  constructor
  · simp [updateAccessToken, hc, hv, hs]
  · simp [redisSet]

/-- Witness for C6: a concrete successful refresh for `userW`. -/
theorem c6_witness :
    updateAccessToken envW 0 0 storeW ⟨none, some refreshTokW, none⟩ =
      .ok ⟨redisSet storeW "u1" (jsonStringify userW) (some 259200) 0,
           jwtSign "u1" "as" (some 300),
           jwtSign "u1" "rs" (some 259200),
           [⟨"access_token", some (jwtSign "u1" "as" (some 300)),
             .tokenOpts (accessTokenOptions envW 0)⟩,
            ⟨"refresh_token", some (jwtSign "u1" "rs" (some 259200)),
             .tokenOpts (refreshTokenOptions envW 0)⟩],
           ⟨200, .refreshBody "success" (jwtSign "u1" "rs" (some 259200))⟩,
           userW⟩ ∧
    redisSet storeW "u1" (jsonStringify userW) (some 259200) 0 "u1" =
      some ⟨jsonStringify userW, some 259200⟩ :=
  c6_refresh_success envW 0 0 storeW ⟨none, some refreshTokW, none⟩
    refreshTokW ⟨"u1"⟩ (jsonStringify userW) rfl rfl rfl

/-- Claim C7: minting an access credential embedding an identity id (the
in-source mint `jwt.sign({ id }, ACCESS_TOKEN, { expiresIn: '5m' })`) and
immediately running the Authentication Gate on it succeeds whenever the
Session Store holds a session entry for that id, and the identity attached
to the request context is exactly the stored snapshot. -/
theorem c7_mint_then_gate (env : Env) (store : SessionStore) (now : Nat)
    (id : String) (s : SerializedUser) (rt : Option SignedToken)
    (ru : Option IUser) (hs : redisGet store id now = some s) :
    isAuthenticated env store now
      ⟨some (jwtSign id env.accessTokenSecret (some (now + 300))), rt, ru⟩ =
      .authenticated (jsonParse s) := by
  have hv : jwtVerify (jwtSign id env.accessTokenSecret (some (now + 300)))
      env.accessTokenSecret now = .ok ⟨id⟩ :=
    jwtVerify_ok_of rfl (by simp [tokenUnexpired, jwtSign])
  simp [isAuthenticated, hv, hs]

/-- Witness for C7: mint for `"u1"` and authenticate against `storeW`. -/
theorem c7_witness :
    isAuthenticated envW storeW 0
      ⟨some (jwtSign "u1" envW.accessTokenSecret (some 300)), none, none⟩ =
      .authenticated userW :=
  c7_mint_then_gate envW storeW 0 "u1" (jsonStringify userW) none none rfl

/-- An access token for `userW` signed with the right secret but already
expired at second 100. -/
def expiredTokW : SignedToken := jwtSign "u1" "as" (some 50)

/-- A malformed access token: signed with the wrong secret, far from
expiry. -/
def malformedTokW : SignedToken := jwtSign "u1" "bad" (some 100000)

/-- Claim C4 counterexample: at JWT-clock 100, an expired access token and a
malformed one produce DIFFERENT responses (the claim says they are
identical): 401 "Expired token. Please log in again" versus
401 "Invalid token. Please provide a valid token". -/
theorem c4_counterexample :
    gateResponse envW storeW 100 ⟨some expiredTokW, none, none⟩ ≠
    gateResponse envW storeW 100 ⟨some malformedTokW, none, none⟩ := by
  decide

/-- Claim C4 as amended: expired and malformed access credentials both get
status 401, but the bodies differ — `ErrorMiddleware` maps
`TokenExpiredError` and `JsonWebTokenError` to distinct messages, so the
caller CAN distinguish the failure modes. -/
theorem c4_distinct_rejections (env : Env) (store : SessionStore) (now : Nat)
    (req1 req2 : AuthRequest) (t1 t2 : SignedToken)
    (h1 : req1.accessTokenCookie = some t1)
    (h2 : req2.accessTokenCookie = some t2)
    (hv1 : jwtVerify t1 env.accessTokenSecret now = .error .tokenExpired)
    (hv2 : jwtVerify t2 env.accessTokenSecret now = .error .jsonWebTokenError) :
    gateResponse env store now req1 =
      some ⟨401, .messageBody false "Expired token. Please log in again"⟩ ∧
    gateResponse env store now req2 =
      some ⟨401, .messageBody false "Invalid token. Please provide a valid token"⟩ := by
  constructor
  · simp [gateResponse, isAuthenticated, h1, hv1, ErrorMiddleware]
  · simp [gateResponse, isAuthenticated, h2, hv2, ErrorMiddleware]

/-- Witness for the amended C4 at the concrete tokens of the
counterexample. -/
theorem c4_witness :
    (gateResponse envW storeW 100 ⟨some expiredTokW, none, none⟩ =
      some ⟨401, .messageBody false "Expired token. Please log in again"⟩) ∧
    (gateResponse envW storeW 100 ⟨some malformedTokW, none, none⟩ =
      some ⟨401, .messageBody false "Invalid token. Please provide a valid token"⟩) :=
  c4_distinct_rejections envW storeW 100 ⟨some expiredTokW, none, none⟩
    ⟨some malformedTokW, none, none⟩ expiredTokW malformedTokW rfl rfl rfl rfl

/-- Claim C5 counterexample: with the allow-list `[""]` (the empty string as
an allowed "role"), an unauthenticated request — `req.user` absent — PASSES
the middleware instead of producing the 403 the claim promises: the absent
role coalesces to `''`, which IS a member of that allow-list. -/
theorem c5_counterexample :
    authorizedRoles [""] ⟨none, none, none⟩ = .proceed := by decide

/-- Claim C5 as amended: `authorizedRoles` rejects 403 with a message naming
the request's role whenever the attached identity's role is not in the
allow-list, and passes through when it is; an unauthenticated request does
not crash — the absent role is treated as the empty string, which fails the
allow-list check and yields the same 403 (naming role "undefined") PROVIDED
the empty string is not itself a member of the allow-list; if it is, the
unauthenticated request passes through. -/
theorem c5_role_gate (roles : List String) (req : AuthRequest) :
    (∀ u : IUser, req.user = some u → roles.contains u.role = false →
      authorizedRoles roles req =
        .nextError 403 (roleNotAllowedMessage u.role)) ∧
    (∀ u : IUser, req.user = some u → roles.contains u.role = true →
      authorizedRoles roles req = .proceed) ∧
    (req.user = none → roles.contains "" = false →
      authorizedRoles roles req =
        .nextError 403 (roleNotAllowedMessage "undefined")) ∧
    (req.user = none → roles.contains "" = true →
      authorizedRoles roles req = .proceed) := by
  refine ⟨?_, ?_, ?_, ?_⟩
  · intro u hu hmem
    simp [authorizedRoles, hu, optionalRoleStr]
    simpa using hmem
  · intro u hu hmem
    simp [authorizedRoles, hu]
    simpa using hmem
  · intro hu hmem
    simp [authorizedRoles, hu, optionalRoleStr]
    simpa using hmem
  · intro hu hmem
    simp [authorizedRoles, hu]
    simpa using hmem

/-- Witness for the amended C5: role "user" against an admin-only list is
403 naming "user"; role "admin" passes; an unauthenticated request is 403
naming "undefined". -/
theorem c5_witness :
    (authorizedRoles ["admin"] ⟨none, none, some userW⟩ =
      .nextError 403 (roleNotAllowedMessage "user")) ∧
    (authorizedRoles ["admin"] ⟨none, none, some ⟨"a1", "admin", "Sam"⟩⟩ =
      .proceed) ∧
    (authorizedRoles ["admin"] ⟨none, none, none⟩ =
      .nextError 403 (roleNotAllowedMessage "undefined")) := by
  refine ⟨?_, ?_, ?_⟩
  · exact (c5_role_gate ["admin"] ⟨none, none, some userW⟩).1 userW rfl (by decide)
  · exact (c5_role_gate ["admin"] ⟨none, none, some ⟨"a1", "admin", "Sam"⟩⟩).2.1
      ⟨"a1", "admin", "Sam"⟩ rfl (by decide)
  · exact (c5_role_gate ["admin"] ⟨none, none, none⟩).2.2.1 rfl (by decide)

/-- Claim C8 counterexample: with the SAME configuration
(`ACCESS_TOKEN_EXPIRES=5`, `REFRESH_TOKEN_EXPIRES=3`), the same user, the
same clock and the same store, the two `sendToken` revisions emit DIFFERENT
cookies: revision A computes `maxAge = 5 * 1000` ms (seconds semantics),
revision B computes `maxAge = 5 * 60 * 60 * 1000` ms (hours semantics). -/
theorem c8_counterexample :
    (sendTokenA envW 0 0 userW 200 emptyStoreW).cookies ≠
    (sendTokenB envW 0 0 userW 200 emptyStoreW).cookies := by
  decide

/-- Claim C8 as amended: the two `sendToken` revisions agree on the minted
tokens, the response body, the session write and the cookie names and
values, but they are NOT equivalent: whenever a positive access duration is
configured, the `access_token` cookie's `maxAge`/`expires` differ — revision
A treats the configured durations as seconds (and adds a stray hour to
`expires`), revision B as hours for access and days for refresh, with
different fallbacks (300/1200 versus 5/3). -/
theorem c8_sendToken_revisions (env : Env) (now nowMs : Nat) (user : IUser)
    (statusCode : Nat) (store : SessionStore) :
    ((sendTokenA env now nowMs user statusCode store).response =
      (sendTokenB env now nowMs user statusCode store).response) ∧
    ((sendTokenA env now nowMs user statusCode store).accessToken =
      (sendTokenB env now nowMs user statusCode store).accessToken) ∧
    ((sendTokenA env now nowMs user statusCode store).refreshToken =
      (sendTokenB env now nowMs user statusCode store).refreshToken) ∧
    ((sendTokenA env now nowMs user statusCode store).newStore =
      (sendTokenB env now nowMs user statusCode store).newStore) ∧
    ((sendTokenA env now nowMs user statusCode store).cookies.map SetCookie.name =
      (sendTokenB env now nowMs user statusCode store).cookies.map SetCookie.name) ∧
    ((sendTokenA env now nowMs user statusCode store).cookies.map SetCookie.value =
      (sendTokenB env now nowMs user statusCode store).cookies.map SetCookie.value) ∧
    (∀ a : Nat, env.accessTokenExpiresEnv = some a → 0 < a →
      (sendTokenA env now nowMs user statusCode store).cookies ≠
        (sendTokenB env now nowMs user statusCode store).cookies) := by
  refine ⟨rfl, rfl, rfl, rfl, rfl, rfl, ?_⟩
  intro a ha hpos heq
  simp [sendTokenA, sendTokenB, accessTokenOptions, refreshTokenOptions, ha,
    SetCookie.mk.injEq, CookieOpts.tokenOpts.injEq, TokenOptions.mk.injEq] at heq
  omega

/-- Witness for the amended C8: same body, different cookies, at the
concrete configuration of the counterexample. -/
theorem c8_witness :
    ((sendTokenA envW 0 0 userW 200 emptyStoreW).response =
      (sendTokenB envW 0 0 userW 200 emptyStoreW).response) ∧
    ((sendTokenA envW 0 0 userW 200 emptyStoreW).cookies ≠
      (sendTokenB envW 0 0 userW 200 emptyStoreW).cookies) :=
  ⟨(c8_sendToken_revisions envW 0 0 userW 200 emptyStoreW).1,
   (c8_sendToken_revisions envW 0 0 userW 200 emptyStoreW).2.2.2.2.2.2
     5 rfl (by decide)⟩

/-- Claim C9: on login and social-auth, `sendToken` (both revisions) writes
the session entry with `redis.set(user._id, JSON.stringify(user))` — NO TTL:
the stored entry has no expiry, `redis.get` returns it at every later time,
and it disappears only through an explicit `redis.del` (logout / account
deletion) or a later overwrite. -/
theorem c9_session_written_without_ttl (env : Env) (now nowMs : Nat)
    (user : IUser) (statusCode : Nat) (store : SessionStore) :
    ((sendTokenA env now nowMs user statusCode store).newStore user._id =
      some ⟨jsonStringify user, none⟩) ∧
    ((sendTokenB env now nowMs user statusCode store).newStore user._id =
      some ⟨jsonStringify user, none⟩) ∧
    (∀ t : Nat,
      redisGet (sendTokenA env now nowMs user statusCode store).newStore
        user._id t = some (jsonStringify user)) ∧
    (∀ t : Nat,
      redisGet (redisDel
        (sendTokenA env now nowMs user statusCode store).newStore user._id)
        user._id t = none) := by
  refine ⟨?_, ?_, ?_, ?_⟩ <;>
    simp [sendTokenA, sendTokenB, redisSet, redisGet, redisDel]

/-- Claim C10: `getUserById` with an id that has no session entry produces
no response at all: neither a user payload nor any error status. -/
theorem c10_getUserById_silent (store : SessionStore) (now : Nat)
    (id : String) (h : redisGet store id now = none) :
    getUserById store now id = none := by
  simp [getUserById, h]

/-- Witness for C10: the empty store and an unknown id. -/
theorem c10_witness :
    redisGet emptyStoreW "ghost" 0 = none ∧
    getUserById emptyStoreW 0 "ghost" = none :=
  ⟨rfl, c10_getUserById_silent emptyStoreW 0 "ghost" rfl⟩
